import Mathlib

/-!
Shallow embedding of the terraform-provider-garage resource and data-source
handlers, translated from the Go source under internal/provider.

Terraform framework attribute values (types.String, types.Int64, ...) are
modelled by a three-state type (null / unknown / value), matching the
plugin-framework semantics used by the provider code: `IsNull`, `IsUnknown`
and `ValueString` (which returns the empty string on null or unknown).

Admin-API and S3 calls are modelled as oracle functions passed to each
handler; every handler result also records the list of calls it issued, so
that "no network call is attempted" is a provable statement (`calls = []`).
-/

namespace Garage

/-- Terraform plugin-framework attribute value of string type:
null, unknown, or a known string value. -/
inductive TString where
  | null
  | unknown
  | value (s : String)
deriving DecidableEq, Repr

/-- `types.String.IsNull()`. -/
def TString.isNull : TString → Bool
  | .null => true
  | _ => false

/-- `types.String.IsUnknown()`. -/
def TString.isUnknown : TString → Bool
  | .unknown => true
  | _ => false

/-- `types.String.ValueString()`: the known value, or "" when null/unknown. -/
def TString.valueString : TString → String
  | .value s => s
  | _ => ""

/-- A user-visible diagnostic as added by `resp.Diagnostics.AddError(summary, detail)`. -/
structure Diagnostic where
  summary : String
  detail : String
deriving DecidableEq, Repr

/-! ## Admin API client data types (internal/client), as used by the provider -/

/-- Request for `client.GetBucketInfo`: lookup by ID or by global alias. -/
structure GetBucketInfoRequest where
  ID : Option String
  GlobalAlias : Option String
deriving DecidableEq, Repr

/-- Website configuration substructure of a bucket record. -/
structure WebsiteConfig where
  IndexDocument : String
  ErrorDocument : String
deriving DecidableEq, Repr

/-- Quota substructure of a bucket record (nil pointers modelled as `none`). -/
structure BucketQuotas where
  MaxSize : Option Int
  MaxObjects : Option Int
deriving DecidableEq, Repr

/-- Bucket record returned by the admin API client. -/
structure Bucket where
  ID : String
  GlobalAliases : List String
  WebsiteAccess : Bool
  WebsiteConfig : Option WebsiteConfig
  Quotas : Option BucketQuotas
  Objects : Int
  Bytes : Int
  UnfinishedUploads : Int
deriving DecidableEq, Repr

/-! ## Bucket data source (BucketDataSource.Read) -/

/-- `BucketDataSourceModel` state record (flat attribute list). -/
structure BucketDataSourceModel where
  ID : TString
  GlobalAlias : TString
  GlobalAliases : List String
  WebsiteEnabled : Bool
  WebsiteIndex : TString
  WebsiteError : TString
  MaxSize : Option Int
  MaxObjects : Option Int
  Objects : Int
  Bytes : Int
  UnfinishedUploads : Int
deriving DecidableEq, Repr

/-- Result of a bucket data-source read: diagnostics, the state written (if
any), and the admin-API calls issued during the read. -/
structure BucketReadResult where
  diagnostics : List Diagnostic
  state : Option BucketDataSourceModel
  calls : List GetBucketInfoRequest
deriving DecidableEq, Repr

/-- The "Missing Required Attribute" diagnostic of BucketDataSource.Read. -/
def missingRequiredAttributeDiag : Diagnostic :=
  { summary := "Missing Required Attribute"
    detail := "Either id or global_alias must be specified." }

/-- The "Bucket Not Found" diagnostic of BucketDataSource.Read. -/
def bucketNotFoundDiag : Diagnostic :=
  { summary := "Bucket Not Found"
    detail := "The specified bucket could not be found." }

/-- The "Client Error" diagnostic wrapping an admin-client error. -/
def clientErrorDiag (e : String) : Diagnostic :=
  { summary := "Client Error", detail := e }

/-- Field population of the data model from a bucket record
(BucketDataSource.Read, lines 190-239 of the source). -/
def populateBucketData (data : BucketDataSourceModel) (bucket : Bucket) :
    BucketDataSourceModel :=
  let d := { data with ID := TString.value bucket.ID }
  let d :=
    if bucket.GlobalAliases.length > 0 then
      { d with GlobalAlias := TString.value (bucket.GlobalAliases.headD "")
               GlobalAliases := bucket.GlobalAliases }
    else
      { d with GlobalAlias := TString.null, GlobalAliases := [] }
  let d := { d with WebsiteEnabled := bucket.WebsiteAccess }
  let d :=
    match bucket.WebsiteConfig with
    | some wc => { d with WebsiteIndex := TString.value wc.IndexDocument
                          WebsiteError := TString.value wc.ErrorDocument }
    | none => { d with WebsiteIndex := TString.null, WebsiteError := TString.null }
  let d :=
    match bucket.Quotas with
    | some q => { d with MaxSize := q.MaxSize, MaxObjects := q.MaxObjects }
    | none => { d with MaxSize := none, MaxObjects := none }
  { d with Objects := bucket.Objects
           Bytes := bucket.Bytes
           UnfinishedUploads := bucket.UnfinishedUploads }

/-- `BucketDataSource.Read`: validate that at least one of id/global_alias is
set, build the request, call `GetBucketInfo` (the oracle `g`), and either
report an error, report not-found, or populate the state. -/
def bucketDataSourceRead (data : BucketDataSourceModel)
    (g : GetBucketInfoRequest → Except String (Option Bucket)) :
    BucketReadResult :=
  if data.ID.isNull && data.GlobalAlias.isNull then
    { diagnostics := [missingRequiredAttributeDiag], state := none, calls := [] }
  else
    let req : GetBucketInfoRequest :=
      { ID := if data.ID.isNull then none else some data.ID.valueString
        GlobalAlias :=
          if data.GlobalAlias.isNull then none else some data.GlobalAlias.valueString }
    match g req with
    | .error e =>
        { diagnostics := [clientErrorDiag ("Unable to read bucket, got error: " ++ e)]
          state := none, calls := [req] }
    | .ok none =>
        { diagnostics := [bucketNotFoundDiag], state := none, calls := [req] }
    | .ok (some bucket) =>
        { diagnostics := [], state := some (populateBucketData data bucket)
          calls := [req] }

/-! ## Key resource (KeyResource: Create, Read, Update) -/

/-- `KeyResourceModel` state record: id, name, secret_access_key. -/
structure KeyResourceModel where
  ID : TString
  Name : TString
  SecretAccessKey : TString
deriving DecidableEq, Repr

/-- Request for `client.ImportKey`. -/
structure ImportKeyRequest where
  AccessKeyID : String
  SecretAccessKey : String
  Name : Option String
deriving DecidableEq, Repr

/-- Request for `client.CreateKey`. -/
structure CreateKeyRequest where
  Name : Option String
deriving DecidableEq, Repr

/-- Key record returned by the admin API client. The secret is a pointer in
the source (`*string`), present only in CreateKey/ImportKey responses. -/
structure Key where
  AccessKeyID : String
  Name : String
  SecretAccessKey : Option String
deriving DecidableEq, Repr

/-- Admin-API calls a key-resource handler may issue. -/
inductive AdminCall where
  | importKey (r : ImportKeyRequest)
  | createKey (r : CreateKeyRequest)
  | getKeyInfo (id : String)
  | deleteKey (id : String)
deriving DecidableEq, Repr

/-- Result of a key-resource write step (Create / Update): diagnostics, the
state written (none on abort), and the admin-API calls issued. -/
structure KeyWriteResult where
  diagnostics : List Diagnostic
  state : Option KeyResourceModel
  calls : List AdminCall
deriving DecidableEq, Repr

/-- The "Invalid Configuration" diagnostic of KeyResource.Create. -/
def invalidKeyConfigDiag : Diagnostic :=
  { summary := "Invalid Configuration"
    detail := "Both id and secret_access_key must be provided together when importing a key, or neither should be provided to generate a new key." }

/-- `hasID` test of KeyResource.Create: attribute neither null nor unknown. -/
def keyHasID (data : KeyResourceModel) : Bool :=
  !data.ID.isNull && !data.ID.isUnknown

/-- `hasSecret` test of KeyResource.Create. -/
def keyHasSecret (data : KeyResourceModel) : Bool :=
  !data.SecretAccessKey.isNull && !data.SecretAccessKey.isUnknown

/-- The ImportKey request KeyResource.Create builds from the plan. -/
def keyImportRequest (data : KeyResourceModel) : ImportKeyRequest :=
  { AccessKeyID := data.ID.valueString
    SecretAccessKey := data.SecretAccessKey.valueString
    Name := if !data.Name.isNull then some data.Name.valueString else none }

/-- The CreateKey request KeyResource.Create builds from the plan. -/
def keyCreateRequest (data : KeyResourceModel) : CreateKeyRequest :=
  { Name := if !data.Name.isNull then some data.Name.valueString else none }

/-- `KeyResource.Create`: import when both id and secret are supplied, create
when neither is, and reject the mixed case before any client call.
`imp` and `cr` are the `client.ImportKey` / `client.CreateKey` oracles. -/
def keyResourceCreate (data : KeyResourceModel)
    (imp : ImportKeyRequest → Except String Key)
    (cr : CreateKeyRequest → Except String Key) : KeyWriteResult :=
  if keyHasID data && keyHasSecret data then
    let req := keyImportRequest data
    match imp req with
    | .error e =>
        { diagnostics := [clientErrorDiag ("Unable to import access key, got error: " ++ e)]
          state := none, calls := [AdminCall.importKey req] }
    | .ok key =>
        { diagnostics := []
          state := some { ID := TString.value key.AccessKeyID
                          Name := TString.value key.Name
                          SecretAccessKey :=
                            TString.value data.SecretAccessKey.valueString }
          calls := [AdminCall.importKey req] }
  else if !keyHasID data && !keyHasSecret data then
    let req := keyCreateRequest data
    match cr req with
    | .error e =>
        { diagnostics := [clientErrorDiag ("Unable to create access key, got error: " ++ e)]
          state := none, calls := [AdminCall.createKey req] }
    | .ok key =>
        { diagnostics := []
          state := some { ID := TString.value key.AccessKeyID
                          Name := TString.value key.Name
                          SecretAccessKey :=
                            match key.SecretAccessKey with
                            | some s => TString.value s
                            | none => data.SecretAccessKey }
          calls := [AdminCall.createKey req] }
  else
    { diagnostics := [invalidKeyConfigDiag], state := none, calls := [] }

/-- Outcome of a Read step: abort with error (prior state untouched), removal
of the tracked record, or a refreshed state. -/
inductive ReadOutcome (α : Type) where
  | errored
  | removed
  | updated (st : α)
deriving DecidableEq, Repr

/-- Result of a key-resource Read: diagnostics, outcome, calls issued. -/
structure KeyReadResult where
  diagnostics : List Diagnostic
  outcome : ReadOutcome KeyResourceModel
  calls : List AdminCall
deriving DecidableEq, Repr

/-- `KeyResource.Read`: fetch key info by the tracked ID; a client error
aborts with a diagnostic, a nil key removes the record, otherwise id and
name are refreshed and the secret is kept from the prior state.
`g` is the `client.GetKeyInfo` oracle. -/
def keyResourceRead (data : KeyResourceModel)
    (g : String → Except String (Option Key)) : KeyReadResult :=
  let keyID := data.ID.valueString
  match g keyID with
  | .error e =>
      { diagnostics := [clientErrorDiag ("Unable to read access key, got error: " ++ e)]
        outcome := ReadOutcome.errored, calls := [AdminCall.getKeyInfo keyID] }
  | .ok none =>
      { diagnostics := [], outcome := ReadOutcome.removed
        calls := [AdminCall.getKeyInfo keyID] }
  | .ok (some key) =>
      { diagnostics := []
        outcome := ReadOutcome.updated
          { data with ID := TString.value key.AccessKeyID
                      Name := TString.value key.Name }
        calls := [AdminCall.getKeyInfo keyID] }

/-- `KeyResource.Update`: a no-op against the server — the plan is written to
state verbatim and no admin-API call is issued. -/
def keyResourceUpdate (plan : KeyResourceModel) : KeyWriteResult :=
  { diagnostics := [], state := some plan, calls := [] }

/-! ## Object resource (GarageObjectResource: Create, Read, Update, ImportState) -/

/-- `GarageObjectResourceModel` state record. -/
structure GarageObjectResourceModel where
  Bucket : TString
  Key : TString
  Source : TString
  Content : TString
  ContentType : TString
  ETag : TString
  ID : TString
deriving DecidableEq, Repr

/-- Input of `s3.PutObject` as built by the object resource; the body is the
byte content actually streamed (file content for source uploads, the literal
string for content uploads). -/
structure PutObjectInput where
  Bucket : String
  Key : String
  Body : String
  ContentType : String
deriving DecidableEq, Repr

/-- Output of `s3.PutObject` (the field the resource reads). -/
structure PutObjectOutput where
  ETag : String
deriving DecidableEq, Repr

/-- Input of `s3.HeadObject` as built by the object resource. -/
structure HeadObjectInput where
  Bucket : String
  Key : String
deriving DecidableEq, Repr

/-- Output of `s3.HeadObject` (the fields the resource reads). -/
structure HeadObjectOutput where
  ETag : String
  ContentType : Option String
deriving DecidableEq, Repr

/-- S3 calls an object-resource handler may issue. -/
inductive S3Call where
  | putObject (i : PutObjectInput)
  | headObject (i : HeadObjectInput)
  | deleteObject (i : HeadObjectInput)
deriving DecidableEq, Repr

/-- Result of an object-resource write step (Create / Update). -/
structure ObjectWriteResult where
  diagnostics : List Diagnostic
  state : Option GarageObjectResourceModel
  calls : List S3Call
deriving DecidableEq, Repr

/-- The "Missing Content" diagnostic of GarageObjectResource.Create. -/
def missingContentDiag : Diagnostic :=
  { summary := "Missing Content"
    detail := "Either source or content must be specified" }

/-- The "File Read Error" diagnostic of GarageObjectResource.Create. -/
def fileReadErrorDiag (e : String) : Diagnostic :=
  { summary := "File Read Error", detail := e }

/-- The "Object Upload Failed" diagnostic of GarageObjectResource.Create. -/
def uploadFailedDiag (e : String) : Diagnostic :=
  { summary := "Object Upload Failed", detail := e }

/-- `GarageObjectResource.Create`: choose the body and content type (source
takes precedence over content; content_type defaults per branch), then upload
via PutObject and record the computed id, etag and content type.
`openFile` models `os.Open` + reading the file; `put` models `PutObject`. -/
def objectCreate (plan : GarageObjectResourceModel)
    (openFile : String → Except String String)
    (put : PutObjectInput → Except String PutObjectOutput) : ObjectWriteResult :=
  let upload (body contentType : String) : ObjectWriteResult :=
    let input : PutObjectInput :=
      { Bucket := plan.Bucket.valueString, Key := plan.Key.valueString
        Body := body, ContentType := contentType }
    match put input with
    | .error e =>
        { diagnostics := [uploadFailedDiag e], state := none
          calls := [S3Call.putObject input] }
    | .ok out =>
        { diagnostics := []
          state := some { plan with
            ID := TString.value (plan.Bucket.valueString ++ "/" ++ plan.Key.valueString)
            ETag := TString.value out.ETag
            ContentType := TString.value contentType }
          calls := [S3Call.putObject input] }
  if !plan.Source.isNull then
    match openFile plan.Source.valueString with
    | .error e =>
        { diagnostics := [fileReadErrorDiag e], state := none, calls := [] }
    | .ok fileContent =>
        upload fileContent
          (if plan.ContentType.isNull then "application/octet-stream"
           else plan.ContentType.valueString)
  else if !plan.Content.isNull then
    upload plan.Content.valueString
      (if plan.ContentType.isNull then "text/plain"
       else plan.ContentType.valueString)
  else
    { diagnostics := [missingContentDiag], state := none, calls := [] }

/-- `GarageObjectResource.Update`: the source forwards the planned values to
`Create` (reusing the Create code path on the update response). -/
def objectUpdate (plan : GarageObjectResourceModel)
    (openFile : String → Except String String)
    (put : PutObjectInput → Except String PutObjectOutput) : ObjectWriteResult :=
  objectCreate plan openFile put

/-- Result of an object-resource Read. -/
structure ObjectReadResult where
  diagnostics : List Diagnostic
  outcome : ReadOutcome GarageObjectResourceModel
  calls : List S3Call
deriving DecidableEq, Repr

/-- `GarageObjectResource.Read`: HeadObject on the tracked bucket/key; on ANY
error the resource is removed from state (no diagnostic is added), on success
the etag (and content type when present) are refreshed.
`head` models `s3.HeadObject`. -/
def objectRead (state : GarageObjectResourceModel)
    (head : HeadObjectInput → Except String HeadObjectOutput) : ObjectReadResult :=
  let input : HeadObjectInput :=
    { Bucket := state.Bucket.valueString, Key := state.Key.valueString }
  match head input with
  | .error _ =>
      { diagnostics := [], outcome := ReadOutcome.removed
        calls := [S3Call.headObject input] }
  | .ok out =>
      { diagnostics := []
        outcome := ReadOutcome.updated
          { state with
            ETag := TString.value out.ETag
            ContentType :=
              match out.ContentType with
              | some ct => TString.value ct
              | none => state.ContentType }
        calls := [S3Call.headObject input] }

/-! ## Object import (GarageObjectResource.ImportState) -/

/-- `strings.SplitN(s, "/", 2)` on the character list: split at the first
slash, or `none` when the string contains no slash. -/
def splitFirstSlash : List Char → Option (List Char × List Char)
  | [] => none
  | c :: cs =>
      if c = '/' then some ([], cs)
      else
        match splitFirstSlash cs with
        | none => none
        | some (a, b) => some (c :: a, b)

/-- Result of ImportState: either a diagnostic or the attributes written. -/
inductive ObjectImportResult where
  | failed (d : Diagnostic)
  | ok (bucket key id : String)
deriving DecidableEq, Repr

/-- The "Invalid Import ID" diagnostic of GarageObjectResource.ImportState. -/
def invalidImportIDDiag (id : String) : Diagnostic :=
  { summary := "Invalid Import ID"
    detail := "Expected import ID in format bucket/key, got: " ++ id }

/-- `GarageObjectResource.ImportState`: split the import ID at the first
slash into bucket and key, keeping the full input as id; reject an input
with no slash. -/
def objectImportState (id : String) : ObjectImportResult :=
  match splitFirstSlash id.data with
  | none => ObjectImportResult.failed (invalidImportIDDiag id)
  | some (b, k) => ObjectImportResult.ok (String.mk b) (String.mk k) id

/-! ## Provider configuration (GarageProvider.Configure endpoint merging) -/

/-- Nested `endpoints` block of the provider configuration. -/
structure EndpointsModel where
  Admin : TString
  S3 : TString
deriving DecidableEq, Repr

/-- The provider configuration attributes relevant to endpoint merging:
the deprecated flat `endpoint` and the optional `endpoints` block. -/
structure GarageProviderConfig where
  Endpoint : TString
  Endpoints : Option EndpointsModel
deriving DecidableEq, Repr

/-- `matchesAt pat s`: the pattern is an initial segment of `s`. -/
def matchesAt : List Char → List Char → Bool
  | [], _ => true
  | _ :: _, [] => false
  | p :: ps, c :: cs => p = c && matchesAt ps cs

/-- `strings.Replace(s, old, new, 1)` for a non-empty `old`: replace the
first (leftmost) occurrence of `old` with `new`, leaving `s` unchanged when
`old` does not occur. -/
def replaceFirst (s pat rep : List Char) : List Char :=
  match s with
  | [] => []
  | c :: cs =>
      if matchesAt pat (c :: cs) then rep ++ (c :: cs).drop pat.length
      else c :: replaceFirst cs pat rep

/-- `replacePort(endpoint, oldPort, newPort)`: replace the first occurrence
of ":oldPort" with ":newPort" in the endpoint string. -/
def replacePort (endpoint oldPort newPort : String) : String :=
  String.mk (replaceFirst endpoint.data (":" ++ oldPort).data (":" ++ newPort).data)

/-- Endpoint-merging logic of `GarageProvider.Configure` (lines 216-236 of the
source): the endpoints block takes precedence; when it yields no admin value
and the deprecated `endpoint` is set, admin falls back to it and a still-empty
S3 endpoint is derived by replacing ":3903" with ":3900". Returns
(adminEndpoint, s3Endpoint). -/
def configureEndpoints (config : GarageProviderConfig) : String × String :=
  let adminEndpoint :=
    match config.Endpoints with
    | some e => if !e.Admin.isNull then e.Admin.valueString else ""
    | none => ""
  let s3Endpoint :=
    match config.Endpoints with
    | some e => if !e.S3.isNull then e.S3.valueString else ""
    | none => ""
  if adminEndpoint = "" && !config.Endpoint.isNull then
    let adminEndpoint := config.Endpoint.valueString
    let s3Endpoint :=
      if s3Endpoint = "" then replacePort adminEndpoint "3903" "3900"
      else s3Endpoint
    (adminEndpoint, s3Endpoint)
  else
    (adminEndpoint, s3Endpoint)

/-! ## Concrete fixtures used by witnesses and counterexample evaluations -/

/-- A concrete bucket record. -/
def witnessBucket : Bucket :=
  { ID := "bid", GlobalAliases := ["my-bucket"], WebsiteAccess := false
    WebsiteConfig := none, Quotas := none
    Objects := 0, Bytes := 0, UnfinishedUploads := 0 }

/-- A concrete bucket data-source configuration looking up by id only. -/
def witnessBucketModel : BucketDataSourceModel :=
  { ID := TString.value "bid", GlobalAlias := TString.null, GlobalAliases := []
    WebsiteEnabled := false, WebsiteIndex := TString.null
    WebsiteError := TString.null, MaxSize := none, MaxObjects := none
    Objects := 0, Bytes := 0, UnfinishedUploads := 0 }

/-- A concrete GetBucketInfo client that finds `witnessBucket` for id "bid". -/
def witnessBucketClient : GetBucketInfoRequest → Except String (Option Bucket) :=
  fun req => if req.ID = some "bid" then .ok (some witnessBucket) else .ok none

/-- A concrete key record as returned by GetKeyInfo (no secret). -/
def witnessKey : Key :=
  { AccessKeyID := "GK123", Name := "my-key", SecretAccessKey := none }

/-- A concrete tracked key state with a stored secret. -/
def witnessKeyModel : KeyResourceModel :=
  { ID := TString.value "GK123", Name := TString.value "old-name"
    SecretAccessKey := TString.value "s3cret" }

/-- A GetKeyInfo client that finds `witnessKey` for id "GK123". -/
def witnessKeyClient : String → Except String (Option Key) :=
  fun id => if id = "GK123" then .ok (some witnessKey) else .ok none

/-- A GetKeyInfo client that always fails with a transport error. -/
def witnessKeyClientDown : String → Except String (Option Key) :=
  fun _ => .error "connection refused"

/-- An ImportKey client that echoes the request back as a key record. -/
def witnessImportClient : ImportKeyRequest → Except String Key :=
  fun r => .ok { AccessKeyID := r.AccessKeyID, Name := r.Name.getD ""
                 SecretAccessKey := none }

/-- A CreateKey client that generates a fresh key with a one-time secret. -/
def witnessCreateClient : CreateKeyRequest → Except String Key :=
  fun r => .ok { AccessKeyID := "GKgen", Name := r.Name.getD ""
                 SecretAccessKey := some "onetime" }

/-- A concrete object-resource plan using literal content. -/
def witnessObjectPlan : GarageObjectResourceModel :=
  { Bucket := TString.value "b", Key := TString.value "k"
    Source := TString.null, Content := TString.value "hello"
    ContentType := TString.null, ETag := TString.null, ID := TString.null }

/-- A file-system oracle with a single file "f.bin" holding "filedata". -/
def witnessOpenFile : String → Except String String :=
  fun p => if p = "f.bin" then .ok "filedata" else .error "no such file"

/-- A PutObject oracle that always succeeds with a fixed etag. -/
def witnessPut : PutObjectInput → Except String PutObjectOutput :=
  fun _ => .ok { ETag := "etag1" }

/-- A HeadObject oracle that always fails with a transport error
(connection refused), as opposed to a not-found result. -/
def transportFailHead : HeadObjectInput → Except String HeadObjectOutput :=
  fun _ => .error "dial tcp 127.0.0.1:3900: connect: connection refused"

/-- A concrete tracked object state, as stored after a successful create. -/
def witnessObjectState : GarageObjectResourceModel :=
  { Bucket := TString.value "b", Key := TString.value "k"
    Source := TString.null, Content := TString.value "hello"
    ContentType := TString.value "text/plain"
    ETag := TString.value "etag0", ID := TString.value "b/k" }

/-- A concrete object-resource plan with both source and content set. -/
def witnessObjectPlanBoth : GarageObjectResourceModel :=
  { Bucket := TString.value "b", Key := TString.value "k"
    Source := TString.value "f.bin", Content := TString.value "ignored"
    ContentType := TString.null, ETag := TString.null, ID := TString.null }

/-- A concrete object-resource plan with neither source nor content set. -/
def witnessObjectPlanEmpty : GarageObjectResourceModel :=
  { Bucket := TString.value "b", Key := TString.value "k"
    Source := TString.null, Content := TString.null
    ContentType := TString.null, ETag := TString.null, ID := TString.null }

/-! ## Theorems -/

/-- Reduction lemma: the known value of a `TString.value`. -/
@[simp] theorem TString.value_valueString (s : String) :
    (TString.value s).valueString = s := rfl

/-- C1: a bucket data-source read with neither id nor global_alias set fails
with the "Missing Required Attribute" diagnostic before any client call; with
exactly one of the two set, the read either succeeds (no diagnostics, state
populated from the bucket record) or reports "Bucket Not Found" (no state),
according to the client result — and no read ever yields a populated state
together with a "Bucket Not Found" diagnostic. -/
theorem bucketRead_requires_id_or_alias :
    (∀ (data : BucketDataSourceModel)
        (g : GetBucketInfoRequest → Except String (Option Bucket)),
      data.ID = TString.null → data.GlobalAlias = TString.null →
        bucketDataSourceRead data g =
          { diagnostics := [missingRequiredAttributeDiag], state := none, calls := [] })
  ∧ (∀ data g (i : String) (b : Bucket),
      data.ID = TString.value i → data.GlobalAlias = TString.null →
      g ⟨some i, none⟩ = Except.ok (some b) →
        bucketDataSourceRead data g =
          { diagnostics := [], state := some (populateBucketData data b)
            calls := [⟨some i, none⟩] })
  ∧ (∀ data g (i : String),
      data.ID = TString.value i → data.GlobalAlias = TString.null →
      g ⟨some i, none⟩ = Except.ok none →
        bucketDataSourceRead data g =
          { diagnostics := [bucketNotFoundDiag], state := none
            calls := [⟨some i, none⟩] })
  ∧ (∀ data g (a : String) (b : Bucket),
      data.ID = TString.null → data.GlobalAlias = TString.value a →
      g ⟨none, some a⟩ = Except.ok (some b) →
        bucketDataSourceRead data g =
          { diagnostics := [], state := some (populateBucketData data b)
            calls := [⟨none, some a⟩] })
  ∧ (∀ data g (a : String),
      data.ID = TString.null → data.GlobalAlias = TString.value a →
      g ⟨none, some a⟩ = Except.ok none →
        bucketDataSourceRead data g =
          { diagnostics := [bucketNotFoundDiag], state := none
            calls := [⟨none, some a⟩] })
  ∧ (∀ data g,
      (bucketDataSourceRead data g).state.isSome = true →
        bucketNotFoundDiag ∉ (bucketDataSourceRead data g).diagnostics) := by
  refine ⟨?_, ?_, ?_, ?_, ?_, ?_⟩
  · intro data g hI hA
    simp [bucketDataSourceRead, hI, hA, TString.isNull]
  · intro data g i b hI hA hg
    simp [bucketDataSourceRead, hI, hA, TString.isNull, TString.valueString, hg]
  · intro data g i hI hA hg
    simp [bucketDataSourceRead, hI, hA, TString.isNull, TString.valueString, hg]
  · intro data g a b hI hA hg
    simp [bucketDataSourceRead, hI, hA, TString.isNull, TString.valueString, hg]
  · intro data g a hI hA hg
    simp [bucketDataSourceRead, hI, hA, TString.isNull, TString.valueString, hg]
  · intro data g
    unfold bucketDataSourceRead
    split
    · simp
    · rcases hg :
          g { ID := if data.ID.isNull = true then none else some data.ID.valueString
              GlobalAlias :=
                if data.GlobalAlias.isNull = true then none
                else some data.GlobalAlias.valueString } with e | ob
      · simp [hg, bucketNotFoundDiag, clientErrorDiag]
      · rcases ob with _ | b <;> simp [hg]

/-- Witness for C1: a concrete read with only the id set and a client that
finds the bucket, and a concrete read with neither identifier set. -/
theorem bucketRead_requires_id_or_alias_witness :
    (witnessBucketModel.ID = TString.value "bid" ∧
      bucketDataSourceRead witnessBucketModel witnessBucketClient =
        { diagnostics := []
          state := some (populateBucketData witnessBucketModel witnessBucket)
          calls := [⟨some "bid", none⟩] }) ∧
    bucketDataSourceRead { witnessBucketModel with ID := TString.null }
        witnessBucketClient =
      { diagnostics := [missingRequiredAttributeDiag], state := none, calls := [] } :=
  ⟨⟨rfl, bucketRead_requires_id_or_alias.2.1 witnessBucketModel witnessBucketClient
      "bid" witnessBucket rfl rfl rfl⟩,
   bucketRead_requires_id_or_alias.1 _ witnessBucketClient rfl rfl⟩

/-- C2: key-resource Create rejects a plan supplying exactly one of id and
secret_access_key with the "Invalid Configuration" diagnostic and issues no
client call; with both supplied it issues exactly one ImportKey call, and
with neither it issues exactly one CreateKey call. -/
theorem keyCreate_import_xor_create :
    (∀ (data : KeyResourceModel) imp cr,
      keyHasID data = true → keyHasSecret data = false →
        keyResourceCreate data imp cr =
          { diagnostics := [invalidKeyConfigDiag], state := none, calls := [] })
  ∧ (∀ (data : KeyResourceModel) imp cr,
      keyHasID data = false → keyHasSecret data = true →
        keyResourceCreate data imp cr =
          { diagnostics := [invalidKeyConfigDiag], state := none, calls := [] })
  ∧ (∀ (data : KeyResourceModel) imp cr,
      keyHasID data = true → keyHasSecret data = true →
        (keyResourceCreate data imp cr).calls =
          [AdminCall.importKey (keyImportRequest data)])
  ∧ (∀ (data : KeyResourceModel) imp cr,
      keyHasID data = false → keyHasSecret data = false →
        (keyResourceCreate data imp cr).calls =
          [AdminCall.createKey (keyCreateRequest data)]) := by
  refine ⟨?_, ?_, ?_, ?_⟩
  · intro data imp cr hID hS
    simp [keyResourceCreate, hID, hS]
  · intro data imp cr hID hS
    simp [keyResourceCreate, hID, hS]
  · intro data imp cr hID hS
    cases h : imp (keyImportRequest data) <;>
      simp [keyResourceCreate, hID, hS, h]
  · intro data imp cr hID hS
    cases h : cr (keyCreateRequest data) <;>
      simp [keyResourceCreate, hID, hS, h]

/-- Witness for C2: a plan with only an id is rejected without a call; a plan
with both id and secret issues the ImportKey call; a plan with neither issues
the CreateKey call. -/
theorem keyCreate_import_xor_create_witness :
    (keyHasID { witnessKeyModel with SecretAccessKey := TString.null } = true ∧
      keyResourceCreate { witnessKeyModel with SecretAccessKey := TString.null }
          witnessImportClient witnessCreateClient =
        { diagnostics := [invalidKeyConfigDiag], state := none, calls := [] }) ∧
    (keyResourceCreate witnessKeyModel witnessImportClient witnessCreateClient).calls =
      [AdminCall.importKey (keyImportRequest witnessKeyModel)] ∧
    (keyResourceCreate
        { ID := TString.null, Name := TString.null, SecretAccessKey := TString.null }
        witnessImportClient witnessCreateClient).calls =
      [AdminCall.createKey
        (keyCreateRequest
          { ID := TString.null, Name := TString.null, SecretAccessKey := TString.null })] :=
  ⟨⟨rfl, keyCreate_import_xor_create.1 _ witnessImportClient witnessCreateClient rfl rfl⟩,
   keyCreate_import_xor_create.2.2.1 witnessKeyModel witnessImportClient
     witnessCreateClient rfl rfl,
   keyCreate_import_xor_create.2.2.2 _ witnessImportClient witnessCreateClient rfl rfl⟩

/-- C3: key-resource Read removes the tracked record (with no diagnostic)
when GetKeyInfo returns a not-found result (nil key, no error), and aborts
with a "Client Error" diagnostic, leaving the record in place, when
GetKeyInfo returns an error. -/
theorem keyRead_notfound_removes_error_aborts :
    (∀ (data : KeyResourceModel) g,
      g data.ID.valueString = Except.ok none →
        keyResourceRead data g =
          { diagnostics := [], outcome := ReadOutcome.removed
            calls := [AdminCall.getKeyInfo data.ID.valueString] })
  ∧ (∀ (data : KeyResourceModel) g e,
      g data.ID.valueString = Except.error e →
        keyResourceRead data g =
          { diagnostics :=
              [clientErrorDiag ("Unable to read access key, got error: " ++ e)]
            outcome := ReadOutcome.errored
            calls := [AdminCall.getKeyInfo data.ID.valueString] }) := by
  constructor
  · intro data g hg
    simp [keyResourceRead, hg]
  · intro data g e hg
    simp [keyResourceRead, hg]

/-- Witness for C3: a client that cannot find the key makes Read drop the
record; a client with a transport failure makes Read abort with a
diagnostic. -/
theorem keyRead_notfound_removes_error_aborts_witness :
    ((fun _ => Except.ok none : String → Except String (Option Key))
        witnessKeyModel.ID.valueString = Except.ok none ∧
      keyResourceRead witnessKeyModel (fun _ => Except.ok none) =
        { diagnostics := [], outcome := ReadOutcome.removed
          calls := [AdminCall.getKeyInfo witnessKeyModel.ID.valueString] }) ∧
    (witnessKeyClientDown witnessKeyModel.ID.valueString =
        Except.error "connection refused" ∧
      keyResourceRead witnessKeyModel witnessKeyClientDown =
        { diagnostics :=
            [clientErrorDiag
              "Unable to read access key, got error: connection refused"]
          outcome := ReadOutcome.errored
          calls := [AdminCall.getKeyInfo witnessKeyModel.ID.valueString] }) :=
  ⟨⟨rfl, keyRead_notfound_removes_error_aborts.1 witnessKeyModel _ rfl⟩,
   ⟨rfl, keyRead_notfound_removes_error_aborts.2 witnessKeyModel
      witnessKeyClientDown "connection refused" rfl⟩⟩

/-- C4: when key-resource Read finds the key, the refreshed state takes its
id and name from the GetKeyInfo response while the secret_access_key is left
exactly as it was in the prior state, whatever the response holds. -/
theorem keyRead_secret_write_only :
    ∀ (data : KeyResourceModel) g (k : Key),
      g data.ID.valueString = Except.ok (some k) →
        keyResourceRead data g =
          { diagnostics := []
            outcome := ReadOutcome.updated
              { ID := TString.value k.AccessKeyID
                Name := TString.value k.Name
                SecretAccessKey := data.SecretAccessKey }
            calls := [AdminCall.getKeyInfo data.ID.valueString] } := by
  intro data g k hg
  simp [keyResourceRead, hg]

/-- Witness for C4: reading a concrete tracked key against a client that
finds it refreshes id and name and keeps the stored secret verbatim. -/
theorem keyRead_secret_write_only_witness :
    witnessKeyClient witnessKeyModel.ID.valueString = Except.ok (some witnessKey) ∧
    keyResourceRead witnessKeyModel witnessKeyClient =
      { diagnostics := []
        outcome := ReadOutcome.updated
          { ID := TString.value "GK123", Name := TString.value "my-key"
            SecretAccessKey := TString.value "s3cret" }
        calls := [AdminCall.getKeyInfo "GK123"] } :=
  ⟨rfl, keyRead_secret_write_only witnessKeyModel witnessKeyClient witnessKey rfl⟩

/-- C10: key-resource Update issues no admin-API call and writes the planned
values verbatim into state, with no diagnostics. -/
theorem keyUpdate_noop :
    ∀ plan : KeyResourceModel,
      (keyResourceUpdate plan).calls = [] ∧
      (keyResourceUpdate plan).state = some plan ∧
      (keyResourceUpdate plan).diagnostics = [] := by
  intro plan
  exact ⟨rfl, rfl, rfl⟩

/-- C5: object-resource Update equals running Create on the planned values —
the same PutObject call and the identical resulting state, for every plan and
every file-system / S3 behaviour. -/
theorem objectUpdate_eq_objectCreate :
    ∀ (plan : GarageObjectResourceModel)
      (openFile : String → Except String String)
      (put : PutObjectInput → Except String PutObjectOutput),
      objectUpdate plan openFile put = objectCreate plan openFile put :=
  fun _ _ _ => rfl

/-- Helper: splitting a character list with no slash yields none. -/
theorem splitFirstSlash_of_no_slash (s : List Char) (hs : '/' ∉ s) :
    splitFirstSlash s = none := by
  induction s with
  | nil => rfl
  | cons c cs ih =>
      rw [List.mem_cons, not_or] at hs
      rw [splitFirstSlash, if_neg (fun h => hs.1 h.symm), ih hs.2]

/-- Helper: splitting a list whose first slash separates `b` from `k`
yields exactly `(b, k)`. -/
theorem splitFirstSlash_append (b k : List Char) (hb : '/' ∉ b) :
    splitFirstSlash (b ++ '/' :: k) = some (b, k) := by
  induction b with
  | nil => simp [splitFirstSlash]
  | cons c cs ih =>
      rw [List.mem_cons, not_or] at hb
      rw [List.cons_append, splitFirstSlash, if_neg (fun h => hb.1 h.symm),
        ih hb.2]

/-- C6: object ImportState splits the import id at its first slash — for any
id of the form `b ++ "/" ++ k` with `b` slash-free it writes bucket `b`, key
`k` (slashes in `k` preserved), and the full input as id; an id with no slash
is rejected with the "Invalid Import ID" diagnostic. -/
theorem objectImportState_splits_at_first_slash :
    (∀ (b k : List Char), '/' ∉ b →
      objectImportState (String.mk (b ++ '/' :: k)) =
        ObjectImportResult.ok (String.mk b) (String.mk k)
          (String.mk (b ++ '/' :: k)))
  ∧ (∀ s : String, '/' ∉ s.data →
      objectImportState s = ObjectImportResult.failed (invalidImportIDDiag s)) := by
  constructor
  · intro b k hb
    simp [objectImportState, splitFirstSlash_append b k hb]
  · intro s hs
    simp [objectImportState, splitFirstSlash_of_no_slash s.data hs]

/-- Witness for C6: the import id "bkt/a/b.txt" splits into bucket "bkt" and
key "a/b.txt", and the slash-free id "nokey" is rejected. -/
theorem objectImportState_splits_at_first_slash_witness :
    ('/' ∉ "bkt".data ∧
      objectImportState (String.mk ("bkt".data ++ '/' :: "a/b.txt".data)) =
        ObjectImportResult.ok (String.mk "bkt".data) (String.mk "a/b.txt".data)
          (String.mk ("bkt".data ++ '/' :: "a/b.txt".data))) ∧
    ('/' ∉ "nokey".data ∧
      objectImportState "nokey" =
        ObjectImportResult.failed (invalidImportIDDiag "nokey")) :=
  ⟨⟨by decide,
    objectImportState_splits_at_first_slash.1 "bkt".data "a/b.txt".data (by decide)⟩,
   ⟨by decide,
    objectImportState_splits_at_first_slash.2 "nokey" (by decide)⟩⟩

/-- C7: with no endpoints block (or an all-null one) and the deprecated flat
endpoint set, Configure uses the deprecated value as admin endpoint and
derives the S3 endpoint by replacing the first ":3903" with ":3900"; when
the endpoints block supplies admin or S3 values, those take precedence and
no substitution occurs. -/
theorem configure_endpoint_fallback :
    (∀ ep : String,
      configureEndpoints { Endpoint := TString.value ep, Endpoints := none } =
        (ep, replacePort ep "3903" "3900"))
  ∧ (∀ ep : String,
      configureEndpoints
          { Endpoint := TString.value ep
            Endpoints := some { Admin := TString.null, S3 := TString.null } } =
        (ep, replacePort ep "3903" "3900"))
  ∧ (∀ (dep : TString) (a s : String), a ≠ "" →
      configureEndpoints
          { Endpoint := dep
            Endpoints :=
              some { Admin := TString.value a, S3 := TString.value s } } =
        (a, s))
  ∧ (∀ (ep s : String), s ≠ "" →
      configureEndpoints
          { Endpoint := TString.value ep
            Endpoints :=
              some { Admin := TString.null, S3 := TString.value s } } =
        (ep, s)) := by
  refine ⟨?_, ?_, ?_, ?_⟩
  · intro ep
    simp [configureEndpoints, TString.isNull, TString.valueString]
  · intro ep
    simp [configureEndpoints, TString.isNull, TString.valueString]
  · intro dep a s ha
    simp [configureEndpoints, TString.isNull, TString.valueString, ha]
  · intro ep s hs
    simp [configureEndpoints, TString.isNull, TString.valueString, hs]

/-- Witness for C7: concrete endpoint merging — deprecated-only configuration
substitutes the port, a full endpoints block wins verbatim, and a block S3
value survives an admin fallback without substitution. -/
theorem configure_endpoint_fallback_witness :
    configureEndpoints
        { Endpoint := TString.value "http://localhost:3903", Endpoints := none } =
      ("http://localhost:3903", replacePort "http://localhost:3903" "3903" "3900") ∧
    ("http://a:1" ≠ "" ∧
      configureEndpoints
          { Endpoint := TString.value "http://localhost:3903"
            Endpoints :=
              some { Admin := TString.value "http://a:1"
                     S3 := TString.value "http://s:9" } } =
        ("http://a:1", "http://s:9")) ∧
    ("http://s:9" ≠ "" ∧
      configureEndpoints
          { Endpoint := TString.value "http://localhost:3903"
            Endpoints :=
              some { Admin := TString.null, S3 := TString.value "http://s:9" } } =
        ("http://localhost:3903", "http://s:9")) :=
  ⟨configure_endpoint_fallback.1 "http://localhost:3903",
   ⟨by decide,
    configure_endpoint_fallback.2.2.1 (TString.value "http://localhost:3903")
      "http://a:1" "http://s:9" (by decide)⟩,
   ⟨by decide,
    configure_endpoint_fallback.2.2.2 "http://localhost:3903" "http://s:9"
      (by decide)⟩⟩

/-- C8 (code evaluation at the failing input): object-resource Read, given a
HeadObject oracle failing with a transport error (connection refused), removes
the tracked record from state and reports NO diagnostic — the transport error
is not surfaced and does not abort the step. -/
theorem objectRead_transport_error_drops_state :
    objectRead witnessObjectState transportFailHead =
      { diagnostics := [], outcome := ReadOutcome.removed
        calls := [S3Call.headObject { Bucket := "b", Key := "k" }] } := by
  rfl

/-- C9: object-resource Create uploads from source when source is set (even
when content is also set), defaulting the content type to
application/octet-stream; uploads the literal content with default text/plain
when only content is set; and fails with "Missing Content" before any S3
call when neither is set. -/
theorem objectCreate_content_selection :
    (∀ (plan : GarageObjectResourceModel) openFile put (src fc : String),
      plan.Source = TString.value src → plan.ContentType = TString.null →
      openFile src = Except.ok fc →
        (objectCreate plan openFile put).calls =
          [S3Call.putObject
            { Bucket := plan.Bucket.valueString, Key := plan.Key.valueString
              Body := fc, ContentType := "application/octet-stream" }])
  ∧ (∀ (plan : GarageObjectResourceModel) openFile put (c : String),
      plan.Source = TString.null → plan.Content = TString.value c →
      plan.ContentType = TString.null →
        (objectCreate plan openFile put).calls =
          [S3Call.putObject
            { Bucket := plan.Bucket.valueString, Key := plan.Key.valueString
              Body := c, ContentType := "text/plain" }])
  ∧ (∀ (plan : GarageObjectResourceModel) openFile put,
      plan.Source = TString.null → plan.Content = TString.null →
        objectCreate plan openFile put =
          { diagnostics := [missingContentDiag], state := none, calls := [] }) := by
  refine ⟨?_, ?_, ?_⟩
  · intro plan openFile put src fc hsrc hct hof
    cases hp : put { Bucket := plan.Bucket.valueString, Key := plan.Key.valueString
                     Body := fc, ContentType := "application/octet-stream" } <;>
      simp [objectCreate, hsrc, hct, hof, TString.isNull, hp]
  · intro plan openFile put c hsrc hcont hct
    cases hp : put { Bucket := plan.Bucket.valueString, Key := plan.Key.valueString
                     Body := c, ContentType := "text/plain" } <;>
      simp [objectCreate, hsrc, hcont, hct, TString.isNull, hp]
  · intro plan openFile put hsrc hcont
    simp [objectCreate, hsrc, hcont, TString.isNull]

/-- Witness for C9: with both source and content set the file content is
uploaded as application/octet-stream (source wins); with only content set the
literal string is uploaded as text/plain; with neither, Create fails with
"Missing Content" and makes no S3 call. -/
theorem objectCreate_content_selection_witness :
    (witnessObjectPlanBoth.Source = TString.value "f.bin" ∧
      witnessOpenFile "f.bin" = Except.ok "filedata" ∧
      (objectCreate witnessObjectPlanBoth witnessOpenFile witnessPut).calls =
        [S3Call.putObject
          { Bucket := "b", Key := "k", Body := "filedata"
            ContentType := "application/octet-stream" }]) ∧
    (objectCreate witnessObjectPlan witnessOpenFile witnessPut).calls =
      [S3Call.putObject
        { Bucket := "b", Key := "k", Body := "hello"
          ContentType := "text/plain" }] ∧
    objectCreate witnessObjectPlanEmpty witnessOpenFile witnessPut =
      { diagnostics := [missingContentDiag], state := none, calls := [] } :=
  ⟨⟨rfl, rfl,
    objectCreate_content_selection.1 witnessObjectPlanBoth witnessOpenFile
      witnessPut "f.bin" "filedata" rfl rfl rfl⟩,
   objectCreate_content_selection.2.1 witnessObjectPlan witnessOpenFile
     witnessPut "hello" rfl rfl rfl,
   objectCreate_content_selection.2.2 witnessObjectPlanEmpty witnessOpenFile
     witnessPut rfl rfl⟩

end Garage
